import Mathlib

/-!
Verification development for the grafana ruler API client
(`public/app/features/alerting/unified/api/ruler.ts`).

The module is embedded shallowly: the URL builder's mutable
`URLSearchParams` accumulator becomes explicit state passing, the
injected HTTP transport becomes a function argument, and a `try/catch`
around the transport becomes a match on `Except`.  Thrown JavaScript
values are modelled by `ThrownValue`, which records the two fields the
code reads (`status`, `data`) plus opaque lists of remaining fields so
that "all other fields are preserved" is expressible.
-/

/-- Character-level string containment, the model of JavaScript
`String.prototype.includes`. -/
def strIncludes (s pat : String) : Bool :=
  decide (pat.data <:+: s.data)

/-- Uppercase hexadecimal digit for `n < 16`. -/
def hexDigitChar (n : Nat) : Char :=
  if n < 10 then Char.ofNat (48 + n) else Char.ofNat (55 + n)

/-- Percent-escape of a single byte, e.g. `47 ↦ "%2F"`. -/
def percentByte (b : Nat) : String :=
  String.mk ['%', hexDigitChar (b / 16), hexDigitChar (b % 16)]

/-- UTF-8 byte sequence of one character. -/
def utf8Bytes (c : Char) : List Nat :=
  let n := c.toNat
  if n < 128 then [n]
  else if n < 2048 then [192 + n / 64, 128 + n % 64]
  else if n < 65536 then [224 + n / 4096, 128 + (n / 64) % 64, 128 + n % 64]
  else [240 + n / 262144, 128 + (n / 4096) % 64, 128 + (n / 64) % 64, 128 + n % 64]

/-- Characters left unescaped by JavaScript `encodeURIComponent`:
alphanumerics and `- _ . ! ~ * ' ( )`. -/
def isUriUnreserved (c : Char) : Bool :=
  c.isAlphanum || c == '-' || c == '_' || c == '.' || c == '!' ||
    c == '~' || c == '*' || c == Char.ofNat 39 || c == '(' || c == ')'

/-- Model of JavaScript `encodeURIComponent`: unreserved characters are
kept, every other character is replaced by the percent-escapes of its
UTF-8 bytes. -/
def encodeURIComponent (s : String) : String :=
  String.join (s.data.map fun c =>
    if isUriUnreserved c then String.singleton c
    else String.join ((utf8Bytes c).map percentByte))

/-- One byte of the `application/x-www-form-urlencoded` serializer used
by `URLSearchParams.toString`: `* - . _` and alphanumerics are kept,
space becomes `+`, everything else is percent-escaped. -/
def formEncodeByte (b : Nat) : String :=
  if b = 32 then "+"
  else if b = 42 || b = 45 || b = 46 || (48 ≤ b && b ≤ 57) ||
      (65 ≤ b && b ≤ 90) || b = 95 || (97 ≤ b && b ≤ 122) then
    String.singleton (Char.ofNat b)
  else percentByte b

/-- `application/x-www-form-urlencoded` serialization of one string. -/
def formEncode (s : String) : String :=
  String.join (((s.data.map utf8Bytes).flatten).map formEncodeByte)

/-- Remove every pair with the given key (used by the `set` model). -/
def removeKey (ps : List (String × String)) (k : String) : List (String × String) :=
  ps.filter fun p => p.1 ≠ k

/-- Model of `URLSearchParams.set`: if the key is present, the first
occurrence is overwritten and later occurrences removed; otherwise the
pair is appended. -/
def searchParamsSet : List (String × String) → String → String → List (String × String)
  | [], k, v => [(k, v)]
  | p :: rest, k, v =>
    if p.1 = k then (k, v) :: removeKey rest k
    else p :: searchParamsSet rest k v

/-- One `key=value` piece of `URLSearchParams.toString`. -/
def searchParamPiece (p : String × String) : String :=
  formEncode p.1 ++ "=" ++ formEncode p.2

/-- Model of `URLSearchParams.toString`: the pieces joined by `&`. -/
def searchParamsToString : List (String × String) → String
  | [] => ""
  | [p] => searchParamPiece p
  | p :: q :: rest => searchParamPiece p ++ "&" ++ searchParamsToString (q :: rest)

/-- Last value written for key `k`, starting from `v` (helper for the
`Object.fromEntries` model). -/
def lastValueFor (k : String) (v : String) : List (String × String) → String
  | [] => v
  | p :: rest => if p.1 = k then lastValueFor k p.2 rest else lastValueFor k v rest

/-- Model of `Object.fromEntries`: keys appear in first-occurrence
order, each carrying the last value assigned to it. -/
def fromEntries : List (String × String) → List (String × String)
  | [] => []
  | (k, v) :: rest => (k, lastValueFor k v rest) :: fromEntries (removeKey rest k)
termination_by ps => ps.length
decreasing_by
  simp only [removeKey]
  exact Nat.lt_succ_of_le (List.length_filter_le _ _)

/-- The `apiVersion` field of `RulerDataSourceConfig`
(`'legacy' | 'config'`). -/
inductive ApiVersion where
  | legacy : ApiVersion
  | config : ApiVersion
deriving DecidableEq, Repr

/-- The `RulerDataSourceConfig` type from `app/types/unified-alerting`. -/
structure RulerDataSourceConfig where
  dataSourceName : String
  apiVersion : ApiVersion
  customRulerEnabled : Bool
deriving DecidableEq, Repr

/-- Modelled from the spec: the built-in ("grafana") rules source name,
`GRAFANA_RULES_SOURCE_NAME` from `../utils/datasource`, which is not
under `src/`. -/
def GRAFANA_RULES_SOURCE_NAME : String := "grafana"

/-- Modelled from the spec: `getDatasourceAPIId` from
`../utils/datasource` (not under `src/`), which produces the encoded
data-source identifier segment of the URL. -/
def getDatasourceAPIId (dataSourceName : String) : String :=
  encodeURIComponent dataSourceName

/-- Modelled from the spec: the fixed "ruler not supported" sentinel
message `RULER_NOT_SUPPORTED_MSG` from `../utils/constants` (not under
`src/`); a single shared constant. -/
def RULER_NOT_SUPPORTED_MSG : String := "ruler not supported"

/-- The `FetchRulerRulesFilter` interface. `panelId` is a JS number;
`0` is falsy. -/
structure FetchRulerRulesFilter where
  dashboardUID : String
  panelId : Option Int := none
deriving DecidableEq, Repr

/-- The state captured by the closures `rulerUrlBuilder` returns: the
computed base path and the shared mutable `URLSearchParams` object. -/
structure RulerUrlBuilder where
  basePath : String
  searchParams : List (String × String)
deriving DecidableEq, Repr

/-- Embedding of `rulerUrlBuilder`: base path from the config's dialect
and the initial query parameters (`source=ruler` when
`customRulerEnabled`, `noProxy=true` when the dialect is legacy). -/
def rulerUrlBuilder (rulerConfig : RulerDataSourceConfig) : RulerUrlBuilder :=
  let grafanaPath := "/api/ruler/" ++ getDatasourceAPIId rulerConfig.dataSourceName
  let rulerPath := if rulerConfig.apiVersion = ApiVersion.config
    then "/config/v1/rules" else "/api/v1/rules"
  let basePath := grafanaPath ++ rulerPath
  let ps0 : List (String × String) := []
  let ps1 := if rulerConfig.customRulerEnabled
    then searchParamsSet ps0 "source" "ruler" else ps0
  let ps2 := if rulerConfig.apiVersion = ApiVersion.legacy
    then searchParamsSet ps1 "noProxy" "true" else ps1
  { basePath := basePath, searchParams := ps2 }

/-- The value returned by the builder's `rules` method:
`{url, params}`. -/
structure RulesTarget where
  url : String
  params : List (String × String)
deriving DecidableEq, Repr

/-- Embedding of the builder's `rules(filter)` closure.  It mutates the
shared accumulator (`dashboard_uid`, and `panel_id` when truthy), so it
returns the updated builder state alongside the target.  JS truthiness:
an empty `dashboardUID` string and a `panelId` of `0` are falsy. -/
def RulerUrlBuilder.rules (b : RulerUrlBuilder) (filter : Option FetchRulerRulesFilter) :
    RulesTarget × RulerUrlBuilder :=
  let sp :=
    match filter with
    | some f =>
      if f.dashboardUID ≠ "" then
        let sp1 := searchParamsSet b.searchParams "dashboard_uid" f.dashboardUID
        match f.panelId with
        | some n => if n ≠ 0 then searchParamsSet sp1 "panel_id" (toString n) else sp1
        | none => sp1
      else b.searchParams
    | none => b.searchParams
  ({ url := b.basePath, params := fromEntries sp }, { b with searchParams := sp })

/-- Embedding of the builder's `namespace(namespace)` closure (named
`namespaceUrl` because `namespace` is a Lean keyword). -/
def RulerUrlBuilder.namespaceUrl (b : RulerUrlBuilder) (ns : String) : String :=
  b.basePath ++ "/" ++ encodeURIComponent ns ++ "?" ++ searchParamsToString b.searchParams

/-- Embedding of the builder's `namespaceGroup(namespace, group)`
closure. -/
def RulerUrlBuilder.namespaceGroupUrl (b : RulerUrlBuilder) (ns group : String) : String :=
  b.basePath ++ "/" ++ encodeURIComponent ns ++ "/" ++ encodeURIComponent group ++ "?" ++
    searchParamsToString b.searchParams

/-- The entries of a params list carrying a given key (used to state
"parameter present exactly once"). -/
def keyEntries (ps : List (String × String)) (k : String) : List (String × String) :=
  ps.filter fun p => p.1 == k

/-- Iterated invocation of the builder's mutating `rules` method, one
call per list element; `namespace`/`namespaceGroup` do not mutate the
accumulator, so an arbitrary method-call history is captured by the
filters passed to `rules`. -/
def applyRulesCalls (b : RulerUrlBuilder) : List (Option FetchRulerRulesFilter) → RulerUrlBuilder
  | [] => b
  | f :: fs => applyRulesCalls (b.rules f).2 fs

/-- Invariant of the builder's query accumulator: keys are unique,
`source=ruler` is present exactly when `customRulerEnabled`, and
`noProxy=true` exactly when the dialect is legacy. -/
def BuilderParamsInv (cfg : RulerDataSourceConfig) (ps : List (String × String)) : Prop :=
  (ps.map Prod.fst).Nodup ∧
  keyEntries ps "source" = (if cfg.customRulerEnabled then [("source", "ruler")] else []) ∧
  keyEntries ps "noProxy" = (if cfg.apiVersion = ApiVersion.legacy then [("noProxy", "true")] else [])

/-- The `ErrorResponseMessage` payload of a transport error, plus an
opaque list of any further own fields of `data`, so that the object
spread `{...error.data, message: ...}` can be shown to preserve them. -/
structure ErrorResponseMessage where
  message : Option String := none
  error : Option String := none
  restData : List (String × String) := []
deriving DecidableEq, Repr

/-- A thrown JavaScript value as far as this module inspects it:
`status` is `some n` exactly when `Number.isFinite(error.status)`,
`data` is `none` exactly when `error.data == null`, and `restFields`
stands for every other field of the thrown object, preserved by the
spread `{...error, data: ...}`. -/
structure ThrownValue where
  status : Option Int := none
  data : Option ErrorResponseMessage := none
  restFields : List (String × String) := []
deriving DecidableEq, Repr

/-- Embedding of `isResponseError`: a finite numeric `status` and a
non-null `data`. -/
def isResponseError (error : ThrownValue) : Bool :=
  let hasErrorMessage := error.data.isSome
  let hasErrorCode := error.status.isSome
  hasErrorCode && hasErrorMessage

/-- Optional-chaining model of `error.data.message?.includes(pat)`:
an absent message is falsy. -/
def optMsgIncludes (m : Option String) (pat : String) : Bool :=
  match m with
  | some s => strIncludes s pat
  | none => false

/-- Embedding of `isRulerNotSupported`: a 404, or a 500 whose message
reports the YAML/HTML content-type mismatch. -/
def isRulerNotSupported (error : ThrownValue) : Bool :=
  error.status == some 404 ||
    (error.status == some 500 &&
      (match error.data with
       | some d => optMsgIncludes d.message
           "unexpected content type from upstream. expected YAML, got text/html"
       | none => false))

/-- Embedding of `isCortexErrorResponse`: a 404 whose message contains
one of the two absent-resource phrases. -/
def isCortexErrorResponse (error : ThrownValue) : Bool :=
  error.status == some 404 &&
    (match error.data with
     | some d => optMsgIncludes d.message "group does not exist" ||
         optMsgIncludes d.message "no rule groups found"
     | none => false)

/-- The object thrown by `rulerGetRequest` in the not-supported branch:
`{...error, data: {...error.data, message: RULER_NOT_SUPPORTED_MSG}}`. -/
def rulerNotSupportedError (error : ThrownValue) : ThrownValue :=
  match error.data with
  | some d => { error with data := some { d with message := some RULER_NOT_SUPPORTED_MSG } }
  | none => { error with data := some { message := some RULER_NOT_SUPPORTED_MSG } }

/-- Outcome of `rulerGetRequest`: a returned value or a thrown one. -/
inductive RulerGetResult (T : Type) where
  | ok : T → RulerGetResult T
  | thrown : ThrownValue → RulerGetResult T
deriving DecidableEq, Repr

/-- Embedding of `rulerGetRequest`: the transport outcome (success or
thrown value) is classified exactly as the `catch` block does. -/
def rulerGetRequest {T : Type} (outcome : Except ThrownValue T) (empty : T) :
    RulerGetResult T :=
  match outcome with
  | .ok response => .ok response
  | .error error =>
    if !(isResponseError error) then .thrown error
    else if isCortexErrorResponse error then .ok empty
    else if isRulerNotSupported error then .thrown (rulerNotSupportedError error)
    else .thrown error

/-- Outcome of `fetchRulerRules`: either the synchronous
`throw new Error(...)` fired before any transport call, or the request
was issued (with the URL and params it used) and classified. -/
inductive FetchOutcome (T : Type) where
  | thrownError : String → FetchOutcome T
  | result : String → List (String × String) → RulerGetResult T → FetchOutcome T
deriving DecidableEq, Repr

/-- Embedding of `fetchRulerRules`.  The response body
`RulerRulesConfigDTO` is a namespace-to-groups record, modelled as an
association list over an opaque group type `G`; the transport is an
injected function of the URL and params. -/
def fetchRulerRules {G : Type} (rulerConfig : RulerDataSourceConfig)
    (filter : Option FetchRulerRulesFilter)
    (transport : String → List (String × String) → Except ThrownValue (List (String × List G))) :
    FetchOutcome (List (String × List G)) :=
  if (match filter with | some f => f.dashboardUID ≠ "" | none => false) &&
      rulerConfig.dataSourceName ≠ GRAFANA_RULES_SOURCE_NAME then
    .thrownError "Filtering by dashboard UID is not supported for cloud rules sources."
  else
    let t := (rulerUrlBuilder rulerConfig).rules filter
    .result t.1.url t.1.params (rulerGetRequest (transport t.1.url t.1.params) [])

/-- Embedding of `fetchRulerRulesNamespace`: request the namespace URL
with an empty-record default, then `result[namespace] || []` (an absent
key yields the empty sequence; a present key yields its groups, `[]` in
JS being truthy). -/
def fetchRulerRulesNamespace {G : Type} (rulerConfig : RulerDataSourceConfig)
    (ns : String)
    (transport : String → Except ThrownValue (List (String × List G))) :
    RulerGetResult (List G) :=
  let url := (rulerUrlBuilder rulerConfig).namespaceUrl ns
  match rulerGetRequest (transport url) [] with
  | .ok result => .ok ((result.lookup ns).getD [])
  | .thrown e => .thrown e

/-- A request handed to the injected transport by the write/delete
operations, generic in the body type. -/
structure BackendFetchRequest (G : Type) where
  method : String
  url : String
  data : Option G := none
deriving DecidableEq, Repr

/-- Embedding of `setRulerRuleGroup`: a POST of the group payload to the
namespace URL, with no catch — the transport outcome is returned as
is. -/
def setRulerRuleGroup {G : Type} (rulerConfig : RulerDataSourceConfig)
    (ns : String) (group : G)
    (transport : BackendFetchRequest G → Except ThrownValue Unit) :
    Except ThrownValue Unit :=
  transport { method := "POST",
              url := (rulerUrlBuilder rulerConfig).namespaceUrl ns,
              data := some group }

/-- Embedding of `deleteRulerRulesGroup`: a DELETE of the group URL,
with no catch. -/
def deleteRulerRulesGroup (rulerConfig : RulerDataSourceConfig)
    (ns groupName : String)
    (transport : BackendFetchRequest Unit → Except ThrownValue Unit) :
    Except ThrownValue Unit :=
  transport { method := "DELETE",
              url := (rulerUrlBuilder rulerConfig).namespaceGroupUrl ns groupName }

/-- Embedding of `deleteNamespace`: a DELETE of the namespace URL, with
no catch. -/
def deleteNamespace (rulerConfig : RulerDataSourceConfig) (ns : String)
    (transport : BackendFetchRequest Unit → Except ThrownValue Unit) :
    Except ThrownValue Unit :=
  transport { method := "DELETE",
              url := (rulerUrlBuilder rulerConfig).namespaceUrl ns }

/-! ### Lemmas about the `URLSearchParams` model -/

theorem removeKey_cons (p : String × String) (rest : List (String × String)) (k : String) :
    removeKey (p :: rest) k =
      if p.1 = k then removeKey rest k else p :: removeKey rest k := by
  by_cases h : p.1 = k <;> simp [removeKey, List.filter_cons, h]

theorem keyEntries_cons (p : String × String) (rest : List (String × String)) (k : String) :
    keyEntries (p :: rest) k =
      if p.1 = k then p :: keyEntries rest k else keyEntries rest k := by
  by_cases h : p.1 = k <;> simp [keyEntries, List.filter_cons, h]

theorem keyEntries_removeKey_self (ps : List (String × String)) (k : String) :
    keyEntries (removeKey ps k) k = [] := by
  induction ps with
  | nil => rfl
  | cons p rest ih =>
    rw [removeKey_cons]
    by_cases h : p.1 = k
    · simpa [h] using ih
    · rw [if_neg h, keyEntries_cons, if_neg h]
      exact ih

theorem keyEntries_removeKey_ne (ps : List (String × String)) (k k' : String)
    (hne : k' ≠ k) : keyEntries (removeKey ps k) k' = keyEntries ps k' := by
  induction ps with
  | nil => rfl
  | cons p rest ih =>
    rw [removeKey_cons, keyEntries_cons]
    by_cases h : p.1 = k
    · have hp : ¬ p.1 = k' := by rw [h]; exact Ne.symm hne
      rw [if_pos h, if_neg hp]
      exact ih
    · rw [if_neg h, keyEntries_cons]
      by_cases h' : p.1 = k'
      · rw [if_pos h', if_pos h', ih]
      · rw [if_neg h', if_neg h']
        exact ih

theorem keyEntries_set_self (ps : List (String × String)) (k v : String) :
    keyEntries (searchParamsSet ps k v) k = [(k, v)] := by
  induction ps with
  | nil => simp [searchParamsSet, keyEntries]
  | cons p rest ih =>
    by_cases h : p.1 = k
    · rw [searchParamsSet, if_pos h, keyEntries_cons, if_pos rfl,
        keyEntries_removeKey_self rest k]
    · rw [searchParamsSet, if_neg h, keyEntries_cons, if_neg h]
      exact ih

theorem keyEntries_set_ne (ps : List (String × String)) (k v k' : String)
    (hne : k' ≠ k) : keyEntries (searchParamsSet ps k v) k' = keyEntries ps k' := by
  induction ps with
  | nil => simp [searchParamsSet, keyEntries, Ne.symm hne]
  | cons p rest ih =>
    by_cases h : p.1 = k
    · have hp : ¬ p.1 = k' := by rw [h]; exact Ne.symm hne
      rw [searchParamsSet, if_pos h, keyEntries_cons, if_neg (Ne.symm hne),
        keyEntries_removeKey_ne rest k k' hne, keyEntries_cons, if_neg hp]
    · rw [searchParamsSet, if_neg h, keyEntries_cons, keyEntries_cons]
      by_cases h' : p.1 = k'
      · rw [if_pos h', if_pos h', ih]
      · rw [if_neg h', if_neg h']
        exact ih

theorem not_mem_keys_removeKey (ps : List (String × String)) (k : String) :
    k ∉ (removeKey ps k).map Prod.fst := by
  induction ps with
  | nil => simp [removeKey]
  | cons p rest ih =>
    rw [removeKey_cons]
    by_cases h : p.1 = k
    · simpa [h] using ih
    · simp only [if_neg h, List.map_cons, List.mem_cons]
      rintro (hc | hc)
      · exact h hc.symm
      · exact ih hc

theorem nodupKeys_removeKey (ps : List (String × String)) (k : String)
    (h : (ps.map Prod.fst).Nodup) : ((removeKey ps k).map Prod.fst).Nodup :=
  h.sublist ((List.filter_sublist ps).map Prod.fst)

theorem mem_keys_set (ps : List (String × String)) (k v a : String)
    (h : a ∈ (searchParamsSet ps k v).map Prod.fst) :
    a ∈ ps.map Prod.fst ∨ a = k := by
  induction ps with
  | nil =>
    simp only [searchParamsSet, List.map_cons, List.map_nil, List.mem_singleton] at h
    exact Or.inr h
  | cons p rest ih =>
    by_cases hp : p.1 = k
    · rw [searchParamsSet, if_pos hp] at h
      simp only [List.map_cons, List.mem_cons] at h
      rcases h with h | h
      · exact Or.inr h
      · refine Or.inl ?_
        simp only [List.map_cons, List.mem_cons]
        exact Or.inr (List.map_subset Prod.fst (List.filter_subset' rest) h)
    · rw [searchParamsSet, if_neg hp] at h
      simp only [List.map_cons, List.mem_cons] at h
      rcases h with h | h
      · exact Or.inl (by simp [h])
      · rcases ih h with h' | h'
        · exact Or.inl (by simp [h', List.mem_cons])
        · exact Or.inr h'

theorem nodupKeys_set (ps : List (String × String)) (k v : String)
    (h : (ps.map Prod.fst).Nodup) : ((searchParamsSet ps k v).map Prod.fst).Nodup := by
  induction ps with
  | nil => simp [searchParamsSet]
  | cons p rest ih =>
    simp only [List.map_cons, List.nodup_cons] at h
    by_cases hp : p.1 = k
    · rw [searchParamsSet, if_pos hp]
      simp only [List.map_cons, List.nodup_cons]
      exact ⟨not_mem_keys_removeKey rest k, nodupKeys_removeKey rest k h.2⟩
    · rw [searchParamsSet, if_neg hp]
      simp only [List.map_cons, List.nodup_cons]
      refine ⟨fun hc => ?_, ih h.2⟩
      rcases mem_keys_set rest k v p.1 hc with h' | h'
      · exact h.1 h'
      · exact hp h'

theorem lastValueFor_not_mem (ps : List (String × String)) (k v : String)
    (h : k ∉ ps.map Prod.fst) : lastValueFor k v ps = v := by
  induction ps generalizing v with
  | nil => rfl
  | cons p rest ih =>
    simp only [List.map_cons, List.mem_cons, not_or] at h
    rw [lastValueFor, if_neg (fun hc => h.1 hc.symm)]
    exact ih v h.2

theorem removeKey_not_mem (ps : List (String × String)) (k : String)
    (h : k ∉ ps.map Prod.fst) : removeKey ps k = ps := by
  rw [removeKey, List.filter_eq_self]
  intro p hp
  simp only [decide_not, Bool.not_eq_eq_eq_not, Bool.not_true, decide_eq_false_iff_not]
  exact fun hc => h (by simpa [← hc] using List.mem_map_of_mem Prod.fst hp)

theorem fromEntries_of_nodupKeys (ps : List (String × String))
    (h : (ps.map Prod.fst).Nodup) : fromEntries ps = ps := by
  induction ps with
  | nil => simp [fromEntries]
  | cons p rest ih =>
    obtain ⟨k, v⟩ := p
    simp only [List.map_cons, List.nodup_cons] at h
    rw [fromEntries, lastValueFor_not_mem rest k v h.1, removeKey_not_mem rest k h.1,
      ih h.2]

theorem mem_of_keyEntries_eq (ps : List (String × String)) (k v : String)
    (h : keyEntries ps k = [(k, v)]) : (k, v) ∈ ps := by
  have : (k, v) ∈ keyEntries ps k := by rw [h]; exact List.mem_singleton_self _
  exact List.mem_of_mem_filter this

/-! ### Lemmas about substring containment in built URLs -/

theorem strInfix_append_left (pat : List Char) (s t : String)
    (h : pat <:+: t.data) : pat <:+: (s ++ t).data := by
  obtain ⟨u, w, hu⟩ := h
  exact ⟨s.data ++ u, w, by rw [String.data_append, ← hu]; simp [List.append_assoc]⟩

theorem strInfix_append_right (pat : List Char) (s t : String)
    (h : pat <:+: s.data) : pat <:+: (s ++ t).data := by
  obtain ⟨u, w, hu⟩ := h
  exact ⟨u, w ++ t.data, by rw [String.data_append, ← hu]; simp [List.append_assoc]⟩

theorem piece_infix_toString (ps : List (String × String)) (p : String × String)
    (h : p ∈ ps) : (searchParamPiece p).data <:+: (searchParamsToString ps).data := by
  induction ps with
  | nil => cases h
  | cons q rest ih =>
    cases rest with
    | nil =>
      rcases List.mem_singleton.mp h with rfl
      exact ⟨[], [], by simp [searchParamsToString]⟩
    | cons q' rest' =>
      rcases List.mem_cons.mp h with rfl | hmem
      · rw [searchParamsToString]
        exact strInfix_append_right _ _ _
          (strInfix_append_right _ _ _ ⟨[], [], by simp⟩)
      · rw [searchParamsToString]
        exact strInfix_append_left _ _ _ (ih hmem)

theorem strIncludes_of_infix (s : String) (pat : String)
    (h : pat.data <:+: s.data) : strIncludes s pat = true :=
  decide_eq_true h

/-! ### Claim theorems -/

/-- C1: a transport error with status 404 whose message contains
"group does not exist" or "no rule groups found" makes `rulerGetRequest`
return the configured `empty` value instead of throwing, even though
such an error also satisfies the generic-404 `isRulerNotSupported`
condition — the `isCortexErrorResponse` check is applied first. -/
theorem rulerGetRequest_absent_resource {T : Type} (empty : T) (e : ThrownValue)
    (d : ErrorResponseMessage)
    (hs : e.status = some 404) (hd : e.data = some d)
    (hm : optMsgIncludes d.message "group does not exist" = true ∨
          optMsgIncludes d.message "no rule groups found" = true) :
    rulerGetRequest (.error e) empty = .ok empty ∧ isRulerNotSupported e = true := by
  constructor
  · have hresp : isResponseError e = true := by
      simp [isResponseError, hs, hd]
    have hcortex : isCortexErrorResponse e = true := by
      rcases hm with hm | hm <;> simp [isCortexErrorResponse, hs, hd, hm]
    simp [rulerGetRequest, hresp, hcortex]
  · simp [isRulerNotSupported, hs]

theorem rulerGetRequest_absent_resource_witness :
    rulerGetRequest (T := Nat)
        (.error { status := some 404,
                  data := some { message := some "rule group does not exist" } }) 7 = .ok 7 ∧
      isRulerNotSupported
        { status := some 404,
          data := some { message := some "rule group does not exist" } } = true :=
  rulerGetRequest_absent_resource 7 _ _ rfl rfl (Or.inl (by decide))

/-- C2: a transport error that is a generic 404 (message contains
neither absent-resource phrase) or a 500 with the YAML/HTML
content-type-mismatch message is rethrown by `rulerGetRequest` with
`data.message` overwritten to the `RULER_NOT_SUPPORTED_MSG` sentinel,
while the status, the other `data` fields, and all other fields of the
thrown object are preserved unchanged. -/
theorem rulerGetRequest_not_supported {T : Type} (empty : T) (e : ThrownValue)
    (d : ErrorResponseMessage) (hd : e.data = some d)
    (h : (e.status = some 404 ∧
           optMsgIncludes d.message "group does not exist" = false ∧
           optMsgIncludes d.message "no rule groups found" = false) ∨
         (e.status = some 500 ∧
           optMsgIncludes d.message
             "unexpected content type from upstream. expected YAML, got text/html" = true)) :
    rulerGetRequest (.error e) empty =
      .thrown { status := e.status,
                data := some { message := some RULER_NOT_SUPPORTED_MSG,
                               error := d.error,
                               restData := d.restData },
                restFields := e.restFields } := by
  obtain ⟨st, dt, rf⟩ := e
  cases hd
  rcases h with ⟨hs, hm1, hm2⟩ | ⟨hs, hm⟩
  · cases hs
    have hresp : isResponseError ⟨some 404, some d, rf⟩ = true := by
      simp [isResponseError]
    have hcortex : isCortexErrorResponse ⟨some 404, some d, rf⟩ = false := by
      simp [isCortexErrorResponse, hm1, hm2]
    have hnots : isRulerNotSupported ⟨some 404, some d, rf⟩ = true := by
      simp [isRulerNotSupported]
    simp [rulerGetRequest, hresp, hcortex, hnots, rulerNotSupportedError]
  · cases hs
    have hresp : isResponseError ⟨some 500, some d, rf⟩ = true := by
      simp [isResponseError]
    have hcortex : isCortexErrorResponse ⟨some 500, some d, rf⟩ = false := by
      simp [isCortexErrorResponse]
    have hnots : isRulerNotSupported ⟨some 500, some d, rf⟩ = true := by
      simp [isRulerNotSupported, hm]
    simp [rulerGetRequest, hresp, hcortex, hnots, rulerNotSupportedError]

theorem rulerGetRequest_not_supported_witness :
    rulerGetRequest (T := Nat)
        (.error { status := some 404,
                  data := some { message := some "unrelated issue",
                                 error := some "err",
                                 restData := [("traceID", "abc")] },
                  restFields := [("url", "/u")] }) 7 =
      .thrown { status := some 404,
                data := some { message := some RULER_NOT_SUPPORTED_MSG,
                               error := some "err",
                               restData := [("traceID", "abc")] },
                restFields := [("url", "/u")] } :=
  rulerGetRequest_not_supported 7 _ _ rfl (Or.inl ⟨rfl, by decide, by decide⟩)

/-- C3: a thrown value without the transport-error shape (no finite
numeric status or a null `data`), and a transport error whose
status/message combination matches none of the 404/500 classification
rules, are rethrown by `rulerGetRequest` unchanged. -/
theorem rulerGetRequest_passthrough {T : Type} (empty : T) (e : ThrownValue)
    (h : (e.status = none ∨ e.data = none) ∨
         (∃ s d, e.status = some s ∧ e.data = some d ∧ s ≠ 404 ∧
           (s = 500 → optMsgIncludes d.message
             "unexpected content type from upstream. expected YAML, got text/html" = false))) :
    rulerGetRequest (.error e) empty = .thrown e := by
  rcases h with h | ⟨s, d, hs, hd, hs404, hs500⟩
  · have hresp : isResponseError e = false := by
      rcases h with h | h <;> simp [isResponseError, h]
    simp [rulerGetRequest, hresp]
  · have hresp : isResponseError e = true := by
      simp [isResponseError, hs, hd]
    have hcortex : isCortexErrorResponse e = false := by
      simp [isCortexErrorResponse, hs, hs404]
    have hnots : isRulerNotSupported e = false := by
      by_cases h5 : s = 500
      · cases h5
        simp [isRulerNotSupported, hs, hd, hs500 rfl]
      · simp [isRulerNotSupported, hs, hd, hs404, h5]
    simp [rulerGetRequest, hresp, hcortex, hnots]

theorem rulerGetRequest_passthrough_witness :
    rulerGetRequest (T := Nat)
        (.error { status := some 500,
                  data := some { message := some "database exploded" } }) 7 =
      .thrown { status := some 500,
                data := some { message := some "database exploded" } } :=
  rulerGetRequest_passthrough 7 _
    (Or.inr ⟨500, { message := some "database exploded" }, rfl, rfl, by decide,
      fun _ => by decide⟩)

/-- C4: `fetchRulerRules` with a filter whose `dashboardUID` is set
(non-empty) and a config whose data-source name is not the built-in
rules source throws the invalid-argument error synchronously — for
every transport, so no transport call is involved; with the built-in
source or without a set `dashboardUID`, the request is issued instead. -/
theorem fetchRulerRules_dashboard_filter {G : Type} (cfg : RulerDataSourceConfig)
    (filter : Option FetchRulerRulesFilter)
    (transport : String → List (String × String) → Except ThrownValue (List (String × List G))) :
    ((∃ f, filter = some f ∧ f.dashboardUID ≠ "") →
      cfg.dataSourceName ≠ GRAFANA_RULES_SOURCE_NAME →
      fetchRulerRules cfg filter transport =
        .thrownError "Filtering by dashboard UID is not supported for cloud rules sources.")
    ∧ ((cfg.dataSourceName = GRAFANA_RULES_SOURCE_NAME ∨
        (∀ f, filter = some f → f.dashboardUID = "")) →
      ∃ r, fetchRulerRules cfg filter transport =
        .result ((rulerUrlBuilder cfg).rules filter).1.url
          ((rulerUrlBuilder cfg).rules filter).1.params r) := by
  constructor
  · rintro ⟨f, rfl, hf⟩ hname
    simp [fetchRulerRules, hf, hname]
  · intro h
    rcases h with h | h
    · cases filter with
      | none =>
        refine ⟨rulerGetRequest (transport ((rulerUrlBuilder cfg).rules none).1.url
          ((rulerUrlBuilder cfg).rules none).1.params) [], ?_⟩
        simp [fetchRulerRules]
      | some f =>
        refine ⟨rulerGetRequest (transport ((rulerUrlBuilder cfg).rules (some f)).1.url
          ((rulerUrlBuilder cfg).rules (some f)).1.params) [], ?_⟩
        simp [fetchRulerRules, h]
    · cases filter with
      | none =>
        refine ⟨rulerGetRequest (transport ((rulerUrlBuilder cfg).rules none).1.url
          ((rulerUrlBuilder cfg).rules none).1.params) [], ?_⟩
        simp [fetchRulerRules]
      | some f =>
        refine ⟨rulerGetRequest (transport ((rulerUrlBuilder cfg).rules (some f)).1.url
          ((rulerUrlBuilder cfg).rules (some f)).1.params) [], ?_⟩
        simp [fetchRulerRules, h f rfl]

theorem fetchRulerRules_dashboard_filter_witness :
    fetchRulerRules (G := Nat)
        { dataSourceName := "mimir", apiVersion := .config, customRulerEnabled := false }
        (some { dashboardUID := "dash-1" }) (fun _ _ => .ok []) =
      .thrownError "Filtering by dashboard UID is not supported for cloud rules sources." :=
  (fetchRulerRules_dashboard_filter _ _ _).1
    ⟨{ dashboardUID := "dash-1" }, rfl, by decide⟩ (by decide)

/-- C5: on transport success, `fetchRulerRulesNamespace` returns the
empty sequence when the requested namespace is absent from the response
record (including the empty record), and exactly the stored groups when
it is present. -/
theorem fetchRulerRulesNamespace_lookup {G : Type} (cfg : RulerDataSourceConfig)
    (ns : String) (record : List (String × List G)) :
    (record.lookup ns = none →
      fetchRulerRulesNamespace cfg ns (fun _ => .ok record) = .ok [])
    ∧ (∀ gs, record.lookup ns = some gs →
      fetchRulerRulesNamespace cfg ns (fun _ => .ok record) = .ok gs) := by
  constructor
  · intro h
    simp [fetchRulerRulesNamespace, rulerGetRequest, h]
  · intro gs h
    simp [fetchRulerRulesNamespace, rulerGetRequest, h]

theorem fetchRulerRulesNamespace_lookup_witness :
    (fetchRulerRulesNamespace (G := Nat)
        { dataSourceName := "grafana", apiVersion := .legacy, customRulerEnabled := false }
        "ns" (fun _ => .ok []) = .ok [])
    ∧ (fetchRulerRulesNamespace (G := Nat)
        { dataSourceName := "grafana", apiVersion := .legacy, customRulerEnabled := false }
        "ns" (fun _ => .ok [("ns", [3, 4])]) = .ok [3, 4]) :=
  ⟨(fetchRulerRulesNamespace_lookup _ "ns" []).1 rfl,
   (fetchRulerRulesNamespace_lookup _ "ns" [("ns", [3, 4])]).2 [3, 4] rfl⟩

/-- C6: the builder's base path is the data-source identifier segment
followed by `/config/v1/rules` exactly when the dialect is CONFIG, and
by `/api/v1/rules` for every other dialect value. -/
theorem rulerUrlBuilder_dialect_path (cfg : RulerDataSourceConfig) :
    (cfg.apiVersion = ApiVersion.config →
      (rulerUrlBuilder cfg).basePath =
        ("/api/ruler/" ++ getDatasourceAPIId cfg.dataSourceName) ++ "/config/v1/rules" ∧
      "/config/v1/rules".data <:+ (rulerUrlBuilder cfg).basePath.data)
    ∧ (cfg.apiVersion ≠ ApiVersion.config →
      (rulerUrlBuilder cfg).basePath =
        ("/api/ruler/" ++ getDatasourceAPIId cfg.dataSourceName) ++ "/api/v1/rules" ∧
      "/api/v1/rules".data <:+ (rulerUrlBuilder cfg).basePath.data) := by
  obtain ⟨n, v, c⟩ := cfg
  constructor
  · intro h
    cases h
    exact ⟨rfl,
      ⟨("/api/ruler/" ++ getDatasourceAPIId n).data, (String.data_append _ _).symm⟩⟩
  · intro h
    cases v with
    | config => exact absurd rfl h
    | legacy =>
      exact ⟨rfl,
        ⟨("/api/ruler/" ++ getDatasourceAPIId n).data, (String.data_append _ _).symm⟩⟩

theorem rulerUrlBuilder_dialect_path_witness :
    ((rulerUrlBuilder { dataSourceName := "ds", apiVersion := .config, customRulerEnabled := false }).basePath =
        ("/api/ruler/" ++ getDatasourceAPIId "ds") ++ "/config/v1/rules" ∧
      "/config/v1/rules".data <:+
        (rulerUrlBuilder { dataSourceName := "ds", apiVersion := .config, customRulerEnabled := false }).basePath.data)
    ∧ ((rulerUrlBuilder { dataSourceName := "ds", apiVersion := .legacy, customRulerEnabled := false }).basePath =
        ("/api/ruler/" ++ getDatasourceAPIId "ds") ++ "/api/v1/rules" ∧
      "/api/v1/rules".data <:+
        (rulerUrlBuilder { dataSourceName := "ds", apiVersion := .legacy, customRulerEnabled := false }).basePath.data) :=
  ⟨(rulerUrlBuilder_dialect_path _).1 rfl,
   (rulerUrlBuilder_dialect_path _).2 (by decide)⟩

/-- C9: the write and delete operations (`setRulerRuleGroup`,
`deleteRulerRulesGroup`, `deleteNamespace`) surface any transport error
to the caller unmodified — no classification is applied, so in
particular a 404 stays an error and is never turned into an
empty/absent result. -/
theorem write_delete_errors_unmodified {G : Type} (cfg : RulerDataSourceConfig)
    (ns groupName : String) (group : G)
    (t1 : BackendFetchRequest G → Except ThrownValue Unit)
    (t2 t3 : BackendFetchRequest Unit → Except ThrownValue Unit)
    (e : ThrownValue) :
    (t1 { method := "POST", url := (rulerUrlBuilder cfg).namespaceUrl ns,
          data := some group } = .error e →
      setRulerRuleGroup cfg ns group t1 = .error e)
    ∧ (t2 { method := "DELETE",
            url := (rulerUrlBuilder cfg).namespaceGroupUrl ns groupName } = .error e →
      deleteRulerRulesGroup cfg ns groupName t2 = .error e)
    ∧ (t3 { method := "DELETE", url := (rulerUrlBuilder cfg).namespaceUrl ns } = .error e →
      deleteNamespace cfg ns t3 = .error e) :=
  ⟨fun h => h, fun h => h, fun h => h⟩

theorem write_delete_errors_unmodified_witness :
    (setRulerRuleGroup
        { dataSourceName := "grafana", apiVersion := .legacy, customRulerEnabled := false }
        "ns" (5 : Nat) (fun _ => .error { status := some 404 }) =
      .error { status := some 404 })
    ∧ (deleteRulerRulesGroup
        { dataSourceName := "grafana", apiVersion := .legacy, customRulerEnabled := false }
        "ns" "g" (fun _ => .error { status := some 404 }) =
      .error { status := some 404 })
    ∧ (deleteNamespace
        { dataSourceName := "grafana", apiVersion := .legacy, customRulerEnabled := false }
        "ns" (fun _ => .error { status := some 404 }) =
      .error { status := some 404 }) :=
  ⟨(write_delete_errors_unmodified
      { dataSourceName := "grafana", apiVersion := .legacy, customRulerEnabled := false }
      "ns" "g" (5 : Nat)
      (fun _ => .error { status := some 404 })
      (fun _ => .error { status := some 404 })
      (fun _ => .error { status := some 404 })
      { status := some 404 }).1 rfl,
   (write_delete_errors_unmodified
      { dataSourceName := "grafana", apiVersion := .legacy, customRulerEnabled := false }
      "ns" "g" (5 : Nat)
      (fun _ => .error { status := some 404 })
      (fun _ => .error { status := some 404 })
      (fun _ => .error { status := some 404 })
      { status := some 404 }).2.1 rfl,
   (write_delete_errors_unmodified
      { dataSourceName := "grafana", apiVersion := .legacy, customRulerEnabled := false }
      "ns" "g" (5 : Nat)
      (fun _ => .error { status := some 404 })
      (fun _ => .error { status := some 404 })
      (fun _ => .error { status := some 404 })
      { status := some 404 }).2.2 rfl⟩

/-! ### Lemmas about the builder's shared accumulator -/

theorem rules_params_eq (b : RulerUrlBuilder) (f : Option FetchRulerRulesFilter) :
    (b.rules f).1.params = fromEntries (b.rules f).2.searchParams := rfl

theorem rules_searchParams_none (b : RulerUrlBuilder) :
    (b.rules none).2.searchParams = b.searchParams := rfl

theorem rules_of_empty_dashboardUID (b : RulerUrlBuilder) (f : FetchRulerRulesFilter)
    (h : f.dashboardUID = "") : (b.rules (some f)).2 = b := by
  simp [RulerUrlBuilder.rules, h]

theorem rules_searchParams_dash (b : RulerUrlBuilder) (f : FetchRulerRulesFilter)
    (h : f.dashboardUID ≠ "") (hp : f.panelId = none) :
    (b.rules (some f)).2.searchParams =
      searchParamsSet b.searchParams "dashboard_uid" f.dashboardUID := by
  simp [RulerUrlBuilder.rules, h, hp]

theorem rules_searchParams_dash_panel (b : RulerUrlBuilder) (f : FetchRulerRulesFilter)
    (n : Int) (h : f.dashboardUID ≠ "") (hp : f.panelId = some n) (hn : n ≠ 0) :
    (b.rules (some f)).2.searchParams =
      searchParamsSet (searchParamsSet b.searchParams "dashboard_uid" f.dashboardUID)
        "panel_id" (toString n) := by
  simp [RulerUrlBuilder.rules, h, hp, hn]

theorem rules_searchParams_dash_panel0 (b : RulerUrlBuilder) (f : FetchRulerRulesFilter)
    (h : f.dashboardUID ≠ "") (hp : f.panelId = some 0) :
    (b.rules (some f)).2.searchParams =
      searchParamsSet b.searchParams "dashboard_uid" f.dashboardUID := by
  simp [RulerUrlBuilder.rules, h, hp]

theorem keyEntries_rules_preserve (b : RulerUrlBuilder) (f : Option FetchRulerRulesFilter)
    (k : String) (h1 : k ≠ "dashboard_uid") (h2 : k ≠ "panel_id") :
    keyEntries (b.rules f).2.searchParams k = keyEntries b.searchParams k := by
  cases f with
  | none => rfl
  | some filt =>
    by_cases hd : filt.dashboardUID = ""
    · rw [rules_of_empty_dashboardUID b filt hd]
    · rcases hp : filt.panelId with _ | n
      · rw [rules_searchParams_dash b filt hd hp, keyEntries_set_ne _ _ _ _ h1]
      · by_cases hn : n = 0
        · subst hn
          rw [rules_searchParams_dash_panel0 b filt hd hp, keyEntries_set_ne _ _ _ _ h1]
        · rw [rules_searchParams_dash_panel b filt n hd hp hn,
            keyEntries_set_ne _ _ _ _ h2, keyEntries_set_ne _ _ _ _ h1]

theorem nodupKeys_rules (b : RulerUrlBuilder) (f : Option FetchRulerRulesFilter)
    (h : (b.searchParams.map Prod.fst).Nodup) :
    (((b.rules f).2.searchParams).map Prod.fst).Nodup := by
  cases f with
  | none => exact h
  | some filt =>
    by_cases hd : filt.dashboardUID = ""
    · rw [rules_of_empty_dashboardUID b filt hd]; exact h
    · rcases hp : filt.panelId with _ | n
      · rw [rules_searchParams_dash b filt hd hp]
        exact nodupKeys_set _ _ _ h
      · by_cases hn : n = 0
        · subst hn
          rw [rules_searchParams_dash_panel0 b filt hd hp]
          exact nodupKeys_set _ _ _ h
        · rw [rules_searchParams_dash_panel b filt n hd hp hn]
          exact nodupKeys_set _ _ _ (nodupKeys_set _ _ _ h)

theorem builderParamsInv_rules (cfg : RulerDataSourceConfig) (b : RulerUrlBuilder)
    (f : Option FetchRulerRulesFilter) (h : BuilderParamsInv cfg b.searchParams) :
    BuilderParamsInv cfg (b.rules f).2.searchParams := by
  obtain ⟨hnd, hsrc, hnp⟩ := h
  refine ⟨nodupKeys_rules b f hnd, ?_, ?_⟩
  · rw [keyEntries_rules_preserve b f "source" (by decide) (by decide)]
    exact hsrc
  · rw [keyEntries_rules_preserve b f "noProxy" (by decide) (by decide)]
    exact hnp

theorem builderParamsInv_init (cfg : RulerDataSourceConfig) :
    BuilderParamsInv cfg (rulerUrlBuilder cfg).searchParams := by
  obtain ⟨n, v, c⟩ := cfg
  cases v <;> cases c <;>
    refine ⟨?_, ?_, ?_⟩ <;>
      simp +decide [rulerUrlBuilder, keyEntries, searchParamsSet, removeKey]

theorem builderParamsInv_applyRulesCalls (cfg : RulerDataSourceConfig)
    (calls : List (Option FetchRulerRulesFilter)) :
    BuilderParamsInv cfg (applyRulesCalls (rulerUrlBuilder cfg) calls).searchParams := by
  have main : ∀ (cs : List (Option FetchRulerRulesFilter)) (b : RulerUrlBuilder),
      BuilderParamsInv cfg b.searchParams →
      BuilderParamsInv cfg (applyRulesCalls b cs).searchParams := by
    intro cs
    induction cs with
    | nil => intro b h; exact h
    | cons f fs ih =>
      intro b h
      exact ih _ (builderParamsInv_rules cfg b f h)
  exact main calls _ (builderParamsInv_init cfg)

theorem param_infix_of_keyEntries (b : RulerUrlBuilder) (k v pre : String)
    (ns g : String) (hke : keyEntries b.searchParams k = [(k, v)])
    (hpre : (formEncode k ++ "=" : String) = pre) :
    strIncludes (b.namespaceUrl ns) (pre ++ formEncode v) = true ∧
    strIncludes (b.namespaceGroupUrl ns g) (pre ++ formEncode v) = true := by
  have hmem : (k, v) ∈ b.searchParams := mem_of_keyEntries_eq _ _ _ hke
  have hpiece := piece_infix_toString _ _ hmem
  have hfix : ((pre ++ formEncode v : String)).data = (searchParamPiece (k, v)).data := by
    rw [← hpre]
    exact rfl
  constructor
  · apply strIncludes_of_infix
    rw [hfix]
    exact strInfix_append_left _ _ _ hpiece
  · apply strIncludes_of_infix
    rw [hfix]
    exact strInfix_append_left _ _ _ hpiece

/-- C7: for a builder created with `customRulerEnabled` (the
usesSourceParam flag), after any sequence of `rules` invocations on the
same instance the accumulator holds the parameter `source=ruler`
exactly once — as does every params map produced by a further `rules`
call and every URL produced by `namespace`/`namespaceGroup` — and
`noProxy=true` is present exactly once if and only if the dialect is
legacy. -/
theorem rulerUrlBuilder_source_param_once (cfg : RulerDataSourceConfig)
    (hsrc : cfg.customRulerEnabled = true)
    (calls : List (Option FetchRulerRulesFilter)) :
    keyEntries (applyRulesCalls (rulerUrlBuilder cfg) calls).searchParams "source" =
        [("source", "ruler")]
    ∧ (∀ f, keyEntries ((applyRulesCalls (rulerUrlBuilder cfg) calls).rules f).1.params
        "source" = [("source", "ruler")])
    ∧ (∀ ns, strIncludes ((applyRulesCalls (rulerUrlBuilder cfg) calls).namespaceUrl ns)
        "source=ruler" = true)
    ∧ (∀ ns g, strIncludes
        ((applyRulesCalls (rulerUrlBuilder cfg) calls).namespaceGroupUrl ns g)
        "source=ruler" = true)
    ∧ keyEntries (applyRulesCalls (rulerUrlBuilder cfg) calls).searchParams "noProxy" =
        (if cfg.apiVersion = ApiVersion.legacy then [("noProxy", "true")] else []) := by
  have hinv := builderParamsInv_applyRulesCalls cfg calls
  have hsrcE : keyEntries (applyRulesCalls (rulerUrlBuilder cfg) calls).searchParams
      "source" = [("source", "ruler")] := by
    have := hinv.2.1
    simpa [hsrc] using this
  refine ⟨hsrcE, ?_, ?_, ?_, hinv.2.2⟩
  · intro f
    have hinv' := builderParamsInv_rules cfg _ f hinv
    rw [rules_params_eq, fromEntries_of_nodupKeys _ hinv'.1]
    simpa [hsrc] using hinv'.2.1
  · intro ns
    have h1 := (param_infix_of_keyEntries _ "source" "ruler" "source=" ns "g" hsrcE
      (by decide)).1
    have heq : ("source=" ++ formEncode "ruler" : String) = "source=ruler" := by decide
    rwa [heq] at h1
  · intro ns g
    have h1 := (param_infix_of_keyEntries _ "source" "ruler" "source=" ns g hsrcE
      (by decide)).2
    have heq : ("source=" ++ formEncode "ruler" : String) = "source=ruler" := by decide
    rwa [heq] at h1

theorem rulerUrlBuilder_source_param_once_witness :
    keyEntries (applyRulesCalls (rulerUrlBuilder
        { dataSourceName := "grafana", apiVersion := ApiVersion.legacy,
          customRulerEnabled := true })
        [some { dashboardUID := "d" }]).searchParams "source" = [("source", "ruler")]
    ∧ strIncludes ((applyRulesCalls (rulerUrlBuilder
        { dataSourceName := "grafana", apiVersion := ApiVersion.legacy,
          customRulerEnabled := true })
        [some { dashboardUID := "d" }]).namespaceUrl "ns") "source=ruler" = true :=
  ⟨(rulerUrlBuilder_source_param_once _ rfl _).1,
   (rulerUrlBuilder_source_param_once _ rfl _).2.2.1 "ns"⟩

/-- C8: `namespace` and `namespaceGroup` URLs are the base path with
each path segment percent-encoded independently and exactly once (the
segment is `encodeURIComponent` of the raw name — `/` and space become
`%2F` and `%20`, not double-encoded), and the accumulated query string
is appended after `?` even when empty, leaving a trailing `?`. -/
theorem builder_urls_encoded_once (b : RulerUrlBuilder) (ns g : String) :
    b.namespaceUrl ns =
      b.basePath ++ "/" ++ encodeURIComponent ns ++ "?" ++
        searchParamsToString b.searchParams
    ∧ b.namespaceGroupUrl ns g =
      b.basePath ++ "/" ++ encodeURIComponent ns ++ "/" ++ encodeURIComponent g ++ "?" ++
        searchParamsToString b.searchParams
    ∧ (b.searchParams = [] →
        b.namespaceUrl ns = b.basePath ++ "/" ++ encodeURIComponent ns ++ "?")
    ∧ encodeURIComponent "a/b c" = "a%2Fb%20c" := by
  refine ⟨rfl, rfl, ?_, by decide⟩
  intro h
  simp only [RulerUrlBuilder.namespaceUrl, h, searchParamsToString]
  exact String.append_empty _

theorem builder_urls_encoded_once_witness :
    RulerUrlBuilder.namespaceUrl { basePath := "/bp", searchParams := [] } "n" =
      "/bp" ++ "/" ++ encodeURIComponent "n" ++ "?"
    ∧ encodeURIComponent "a/b c" = "a%2Fb%20c" :=
  ⟨(builder_urls_encoded_once ⟨"/bp", []⟩ "n" "g").2.2.1 rfl,
   (builder_urls_encoded_once ⟨"/bp", []⟩ "n" "g").2.2.2⟩

/-- C10: a `rules` call with a set (non-empty) `dashboardUID` mutates
the accumulator shared by all three builder methods, so `namespace` and
`namespaceGroup` URLs produced afterwards from the same instance carry
`dashboard_uid` (and `panel_id` when a non-zero `panelId` was given);
`panel_id` is added only inside the dashboardUID branch and only when
`panelId` is truthy: `panelId = 0` adds nothing, and with a falsy
`dashboardUID` the builder state is left entirely unchanged. -/
theorem rules_dashboard_mutates_shared_state (b : RulerUrlBuilder)
    (f : FetchRulerRulesFilter) (ns g : String) :
    (f.dashboardUID ≠ "" →
      keyEntries (b.rules (some f)).2.searchParams "dashboard_uid" =
          [("dashboard_uid", f.dashboardUID)]
      ∧ strIncludes ((b.rules (some f)).2.namespaceUrl ns)
          ("dashboard_uid=" ++ formEncode f.dashboardUID) = true
      ∧ strIncludes ((b.rules (some f)).2.namespaceGroupUrl ns g)
          ("dashboard_uid=" ++ formEncode f.dashboardUID) = true
      ∧ (∀ n : Int, f.panelId = some n → n ≠ 0 →
          keyEntries (b.rules (some f)).2.searchParams "panel_id" =
              [("panel_id", toString n)]
          ∧ strIncludes ((b.rules (some f)).2.namespaceUrl ns)
              ("panel_id=" ++ formEncode (toString n)) = true)
      ∧ (f.panelId = some 0 →
          keyEntries (b.rules (some f)).2.searchParams "panel_id" =
            keyEntries b.searchParams "panel_id"))
    ∧ (f.dashboardUID = "" → (b.rules (some f)).2 = b) := by
  constructor
  · intro hd
    have hdash : keyEntries (b.rules (some f)).2.searchParams "dashboard_uid" =
        [("dashboard_uid", f.dashboardUID)] := by
      rcases hp : f.panelId with _ | n
      · rw [rules_searchParams_dash b f hd hp, keyEntries_set_self]
      · by_cases hn : n = 0
        · subst hn
          rw [rules_searchParams_dash_panel0 b f hd hp, keyEntries_set_self]
        · rw [rules_searchParams_dash_panel b f n hd hp hn,
            keyEntries_set_ne _ _ _ _ (by decide), keyEntries_set_self]
    have hurl := param_infix_of_keyEntries _ "dashboard_uid" f.dashboardUID
      "dashboard_uid=" ns g hdash (by decide)
    refine ⟨hdash, hurl.1, hurl.2, ?_, ?_⟩
    · intro n hp hn
      have hpanel : keyEntries (b.rules (some f)).2.searchParams "panel_id" =
          [("panel_id", toString n)] := by
        rw [rules_searchParams_dash_panel b f n hd hp hn, keyEntries_set_self]
      exact ⟨hpanel,
        (param_infix_of_keyEntries _ "panel_id" (toString n) "panel_id=" ns g hpanel
          (by decide)).1⟩
    · intro hp
      rw [rules_searchParams_dash_panel0 b f hd hp,
        keyEntries_set_ne _ _ _ _ (by decide)]
  · exact rules_of_empty_dashboardUID b f

theorem rules_dashboard_mutates_shared_state_witness :
    keyEntries ((RulerUrlBuilder.rules ⟨"/bp", []⟩
        (some { dashboardUID := "d", panelId := some 5 })).2.searchParams)
      "dashboard_uid" = [("dashboard_uid", "d")]
    ∧ strIncludes ((RulerUrlBuilder.rules ⟨"/bp", []⟩
        (some { dashboardUID := "d", panelId := some 5 })).2.namespaceUrl "ns")
        ("dashboard_uid=" ++ formEncode "d") = true
    ∧ keyEntries ((RulerUrlBuilder.rules ⟨"/bp", []⟩
        (some { dashboardUID := "d", panelId := some 5 })).2.searchParams)
      "panel_id" = [("panel_id", toString (5 : Int))] :=
  ⟨((rules_dashboard_mutates_shared_state ⟨"/bp", []⟩
      { dashboardUID := "d", panelId := some 5 } "ns" "g").1 (by decide)).1,
   ((rules_dashboard_mutates_shared_state ⟨"/bp", []⟩
      { dashboardUID := "d", panelId := some 5 } "ns" "g").1 (by decide)).2.1,
   (((rules_dashboard_mutates_shared_state ⟨"/bp", []⟩
      { dashboardUID := "d", panelId := some 5 } "ns" "g").1 (by decide)).2.2.2.1
      5 rfl (by decide)).1⟩
